import Mathlib

/-!
Shallow embedding of the weather service in `src/main.go`.

The program is a single-endpoint HTTP service: `weatherHandler` validates the
`lat`/`lon` query parameters, `getForecast` performs two upstream HTTP calls
(the NWS "points" lookup and the forecast fetch), selects a forecast period,
and `classify` buckets its temperature into hot/cold/moderate.

Modelling choices:
  - `float64` coordinates are idealised as rationals; `fmt.Sprintf` with the
    fixed-4-decimals verb is modelled by `fmt4` (scaled rounding, zero-padded
    four-digit fractional part), which captures the formatted shape.
  - The network is a parameter `net : Request -> ExchangeResult`; a transport
    failure of `http.DefaultClient.Do` is `ExchangeResult.transportFail`, and a
    delivered response carries its status code, the body bytes obtained by the
    read (whose error the Go code discards: `body, _ := ioutil.ReadAll`), and a
    flag recording whether that read failed.
  - `json.Unmarshal` into the two response structs is a parameter
    `String -> Option _`; `none` models an unmarshal error.
  - `strconv.ParseFloat` is a parameter `String -> Option Rat`.
  - A Go function that can return a value, return an error, or panic is
    modelled by `GoResult`; the unguarded index `Periods[0]` on an empty slice
    is `GoResult.panic`.
  - `http.Error` writes the given message as the body without setting a
    content type explicitly; `contentType` is `some _` only where the handler
    source sets the header itself.
  - `time.Now().Format` with the year-month-day layout is the parameter
    `today : String`.
-/

namespace Weather

/-- Model of the Go error kinds the resolver can return: a transport-level
failure of an upstream request, or a JSON unmarshal failure. -/
inductive GoError where
  | upstream
  | decode
deriving DecidableEq, Repr

/-- Outcome of a Go function that may return a value, return an error, or
panic at runtime. -/
inductive GoResult (α : Type) where
  | ok (a : α)
  | err (e : GoError)
  | panic
deriving DecidableEq, Repr

/-- One element of `ForecastResponse.Properties.Periods` in main.go. -/
structure Period where
  name : String
  startTime : String
  temperature : Int
  temperatureUnit : String
  shortForecast : String
  isDaytime : Bool
deriving DecidableEq, Repr

/-- `PointsResponse` in main.go, flattened: the nested
`Properties.Forecast` URL string. -/
structure PointsResponse where
  forecast : String
deriving DecidableEq, Repr

/-- `ForecastResponse` in main.go, flattened: the nested
`Properties.Periods` slice. -/
structure ForecastResponse where
  periods : List Period
deriving DecidableEq, Repr

/-- `WeatherResult` in main.go: the JSON structure returned by the endpoint. -/
structure WeatherResult where
  forecast : String
  temperature : Int
  classification : String
deriving DecidableEq, Repr

/-- An outbound HTTP request as the Go code builds it: the URL passed to
`http.NewRequest` and the User-Agent header set on it. -/
structure Request where
  url : String
  userAgent : String
deriving DecidableEq, Repr

/-- Result of one upstream exchange: `http.DefaultClient.Do` fails at the
transport level, or a response is delivered with a status code and the body
bytes the read produced (`readFailed` records the discarded ReadAll error). -/
inductive ExchangeResult where
  | transportFail
  | response (status : Nat) (body : String) (readFailed : Bool)
deriving DecidableEq, Repr

/-- The endpoint's HTTP response: status code, the content type when the
handler sets one explicitly, and the body text. -/
structure Response where
  status : Nat
  contentType : Option String
  body : String
deriving DecidableEq, Repr

/-- `classify` in main.go (lines 131-140): switch on the temperature. -/
def classify (temp : Int) : String :=
  if 80 ≤ temp then "hot"
  else if temp ≤ 50 then "cold"
  else "moderate"

/-- One decimal digit as a character. -/
def digitChar (d : Nat) : Char := Char.ofNat (48 + d % 10)

/-- Zero-padded four-digit decimal rendering of `n % 10000`, the fractional
part produced by the fixed-4-decimals float verb. -/
def pad4 (n : Nat) : String :=
  String.mk [digitChar (n / 1000), digitChar (n / 100), digitChar (n / 10), digitChar n]

/-- Round-half-up of a rational to the nearest integer, computed by floor
division on the numerator and denominator. -/
def roundQ (q : ℚ) : ℤ := (2 * q.num + q.den).fdiv (2 * q.den)

/-- Fixed-point rendering of a rational with exactly four digits after the
decimal point, modelling the `%.4f` verb of `fmt.Sprintf` on a float64
coordinate: the coordinate scaled by ten thousand is rounded to an integer
whose sign, integer part and zero-padded four-digit fractional part are
rendered. -/
def fmt4 (q : ℚ) : String :=
  let n : ℤ := roundQ (mkRat (q.num * 10000) q.den)
  let a : ℕ := n.natAbs
  (if n < 0 then "-" else "") ++ toString (a / 10000) ++ "." ++ pad4 (a % 10000)

/-- The points-lookup URL built at main.go line 87. -/
def pointsURL (lat lon : ℚ) : String :=
  "https://api.weather.gov/points/" ++ fmt4 lat ++ "," ++ fmt4 lon

/-- The points request with its User-Agent header (main.go lines 88-89). -/
def pointsRequest (lat lon : ℚ) : Request :=
  ⟨pointsURL lat lon, "weather-service-example"⟩

/-- The forecast request with its User-Agent header (main.go lines 104-105). -/
def forecastRequest (url : String) : Request :=
  ⟨url, "weather-service-example"⟩

/-- The loop condition at main.go line 121: daytime period whose start
timestamp has at least 10 characters and whose first 10 characters equal the
current date string. -/
def matchesToday (today : String) (p : Period) : Bool :=
  p.isDaytime && decide (10 ≤ p.startTime.length) && decide (p.startTime.take 10 = today)

/-- The selection loop at main.go lines 120-124: first period satisfying the
condition, in slice order. -/
def findTodayDaytime (today : String) : List Period → Option Period
  | [] => none
  | p :: rest =>
    if matchesToday today p then some p else findTodayDaytime today rest

/-- `getForecast` in main.go (lines 85-129), with the network, the two
unmarshal steps and the current date as parameters. Returns the short
forecast, the temperature and its classification, or an error; the unguarded
fallback index on an empty period slice is a panic. -/
def getForecast (net : Request → ExchangeResult)
    (decodePoints : String → Option PointsResponse)
    (decodeForecast : String → Option ForecastResponse)
    (today : String) (lat lon : ℚ) : GoResult (String × Int × String) :=
  match net (pointsRequest lat lon) with
  | .transportFail => .err .upstream
  | .response _ body _ =>
    match decodePoints body with
    | none => .err .decode
    | some pr =>
      match net (forecastRequest pr.forecast) with
      | .transportFail => .err .upstream
      | .response _ body2 _ =>
        match decodeForecast body2 with
        | none => .err .decode
        | some fr =>
          match findTodayDaytime today fr.periods with
          | some p => .ok (p.shortForecast, p.temperature, classify p.temperature)
          | none =>
            match fr.periods with
            | [] => .panic
            | p :: _ => .ok (p.shortForecast, p.temperature, classify p.temperature)

/-- Lower-case hexadecimal digit for a value below 16. -/
def hexDigitChar (n : Nat) : Char :=
  if n < 10 then Char.ofNat (48 + n) else Char.ofNat (87 + n)

/-- Escaping of one character as Go's JSON encoder performs it (quotes,
backslash, common controls, HTML-significant characters, other controls as
a unicode escape). -/
def jsonEscapeChar (c : Char) : String :=
  if c = '"' then "\\\""
  else if c = '\\' then "\\\\"
  else if c = '\n' then "\\n"
  else if c = '\r' then "\\r"
  else if c = '\t' then "\\t"
  else if c = '<' then "\\u003c"
  else if c = '>' then "\\u003e"
  else if c = '&' then "\\u0026"
  else if c.toNat < 32 then
    "\\u00" ++ String.mk [hexDigitChar (c.toNat / 16), hexDigitChar (c.toNat % 16)]
  else String.singleton c

/-- JSON string escaping applied character-wise. -/
def jsonEscape (s : String) : String :=
  String.join (s.toList.map jsonEscapeChar)

/-- Serialization of `WeatherResult` as `json.NewEncoder(w).Encode` emits it:
the three tagged fields in struct order. -/
def encodeWeatherResult (r : WeatherResult) : String :=
  "\x7b\"forecast\":\"" ++ jsonEscape r.forecast
    ++ "\",\"temperature\":" ++ toString r.temperature
    ++ ",\"classification\":\"" ++ jsonEscape r.classification ++ "\"\x7d"

/-- `weatherHandler` in main.go (lines 50-83), with `strconv.ParseFloat` and
the resolver as parameters. Go's `Query().Get` returns the empty string for a
missing parameter, so a missing parameter is the empty string here. `none`
models the handler panicking (no response written) when the resolver panics. -/
def weatherHandler (parseFloat : String → Option ℚ)
    (resolve : ℚ → ℚ → GoResult (String × Int × String))
    (latStr lonStr : String) : Option Response :=
  if latStr = "" ∨ lonStr = "" then
    some ⟨400, none, "Missing lat or lon parameter"⟩
  else
    match parseFloat latStr with
    | none => some ⟨400, none, "Invalid latitude"⟩
    | some lat =>
      match parseFloat lonStr with
      | none => some ⟨400, none, "Invalid longitude"⟩
      | some lon =>
        match resolve lat lon with
        | .err _ => some ⟨500, none, "Failed to fetch forecast"⟩
        | .panic => none
        | .ok (forecast, temp, classification) =>
          some ⟨200, some "application/json",
            encodeWeatherResult ⟨forecast, temp, classification⟩⟩

end Weather

namespace Weather

/-- Claim C1: for every integer temperature, classify returns "hot" iff the
temperature is at least 80, "cold" iff it is at most 50, and "moderate"
otherwise, with both boundaries inclusive; in particular classify 79 =
"moderate", classify 80 = "hot", classify 50 = "cold", classify 51 =
"moderate". The function is total. -/
theorem classify_spec (t : Int) :
    ((classify t = "hot") ↔ 80 ≤ t)
    ∧ ((classify t = "cold") ↔ t ≤ 50)
    ∧ ((classify t = "moderate") ↔ 50 < t ∧ t < 80)
    ∧ classify 79 = "moderate" ∧ classify 80 = "hot"
    ∧ classify 50 = "cold" ∧ classify 51 = "moderate" := by
  refine ⟨?_, ?_, ?_, by decide, by decide, by decide, by decide⟩ <;>
  · unfold classify
    split_ifs with h1 h2 <;> simp_all <;> omega

/-- The selection loop returns the first matching period: if every period of
a prefix fails the condition and the next period satisfies it, that period is
selected. -/
theorem findTodayDaytime_first (today : String) (p : Period) (suf : List Period)
    (hp : matchesToday today p = true) :
    ∀ pre : List Period, (∀ q ∈ pre, matchesToday today q = false) →
      findTodayDaytime today (pre ++ p :: suf) = some p := by
  intro pre
  induction pre with
  | nil => intro _; simp [findTodayDaytime, hp]
  | cons q rest ih =>
    intro hpre
    have hq : matchesToday today q = false := hpre q (by simp)
    simpa [findTodayDaytime, hq] using ih (fun r hr => hpre r (by simp [hr]))

/-- The selection loop finds nothing when no period satisfies the condition. -/
theorem findTodayDaytime_none (today : String) :
    ∀ l : List Period, (∀ q ∈ l, matchesToday today q = false) →
      findTodayDaytime today l = none := by
  intro l
  induction l with
  | nil => intro _; rfl
  | cons q rest ih =>
    intro h
    have hq : matchesToday today q = false := h q (by simp)
    simpa [findTodayDaytime, hq] using ih (fun r hr => h r (by simp [hr]))

/-- The four-digit padded fractional part always has length four. -/
theorem pad4_length (n : Nat) : (pad4 n).length = 4 := rfl

/-- The fixed-4-decimals rendering always splits as an integer part, a
decimal point, and a fractional part of exactly four digits. -/
theorem fmt4_split (q : ℚ) : ∃ a b : String, fmt4 q = a ++ "." ++ b ∧ b.length = 4 :=
  ⟨(if roundQ (mkRat (q.num * 10000) q.den) < 0 then "-" else "")
      ++ toString ((roundQ (mkRat (q.num * 10000) q.den)).natAbs / 10000),
   pad4 ((roundQ (mkRat (q.num * 10000) q.den)).natAbs % 10000),
   rfl, pad4_length _⟩

/-- Claim C7: for every coordinate pair, the points-lookup URL is built from
both coordinates rendered with exactly four decimal places, and both the
points request and the forecast request carry the non-empty identifying
User-Agent header. -/
theorem request_construction (lat lon : ℚ) (u : String) :
    (pointsRequest lat lon).url
      = "https://api.weather.gov/points/" ++ fmt4 lat ++ "," ++ fmt4 lon
    ∧ (∃ a b : String, fmt4 lat = a ++ "." ++ b ∧ b.length = 4)
    ∧ (∃ a b : String, fmt4 lon = a ++ "." ++ b ∧ b.length = 4)
    ∧ (pointsRequest lat lon).userAgent = "weather-service-example"
    ∧ (forecastRequest u).userAgent = "weather-service-example"
    ∧ "weather-service-example" ≠ "" :=
  ⟨rfl, fmt4_split lat, fmt4_split lon, rfl, rfl, by decide⟩

end Weather

namespace Weather

/-- Claim C2: for every non-empty period sequence and current date string,
the resolver selects the first period in sequence order that is daytime and
whose start timestamp begins with the current date; if no period matches it
selects the first element of the sequence unconditionally, and this fallback
succeeds — the resolver returns that period's data and the endpoint answers
200 with it rather than an error. -/
theorem getForecast_selection (net : Request → ExchangeResult)
    (decP : String → Option PointsResponse) (decF : String → Option ForecastResponse)
    (parse : String → Option ℚ) (today latStr lonStr : String) (lat lon : ℚ)
    (s : Nat) (b : String) (rb : Bool) (pr : PointsResponse)
    (s2 : Nat) (b2 : String) (rb2 : Bool) (fr : ForecastResponse)
    (hnet1 : net (pointsRequest lat lon) = .response s b rb)
    (hdecP : decP b = some pr)
    (hnet2 : net (forecastRequest pr.forecast) = .response s2 b2 rb2)
    (hdecF : decF b2 = some fr) :
    (∀ pre p suf, fr.periods = pre ++ p :: suf →
        (∀ q ∈ pre, matchesToday today q = false) → matchesToday today p = true →
        getForecast net decP decF today lat lon
          = .ok (p.shortForecast, p.temperature, classify p.temperature))
    ∧ (∀ p rest, fr.periods = p :: rest →
        (∀ q ∈ fr.periods, matchesToday today q = false) →
        getForecast net decP decF today lat lon
          = .ok (p.shortForecast, p.temperature, classify p.temperature)
        ∧ (latStr ≠ "" → lonStr ≠ "" → parse latStr = some lat → parse lonStr = some lon →
            weatherHandler parse (getForecast net decP decF today) latStr lonStr
              = some ⟨200, some "application/json",
                  encodeWeatherResult ⟨p.shortForecast, p.temperature, classify p.temperature⟩⟩)) := by
  constructor
  · intro pre p suf hperiods hpre hp
    have hfind := findTodayDaytime_first today p suf hp pre hpre
    simp [getForecast, hnet1, hdecP, hnet2, hdecF, hperiods, hfind]
  · intro p rest hperiods hnone
    have hfind := findTodayDaytime_none today fr.periods hnone
    rw [hperiods] at hfind
    have hok : getForecast net decP decF today lat lon
        = .ok (p.shortForecast, p.temperature, classify p.temperature) := by
      simp [getForecast, hnet1, hdecP, hnet2, hdecF, hperiods, hfind]
    refine ⟨hok, fun hlat hlon hplat hplon => ?_⟩
    unfold weatherHandler
    rw [if_neg (by simp [hlat, hlon])]
    simp [hplat, hplon, hok]

/-- Witness for claim C2: a concrete run where the only period is a
non-matching nighttime period from the previous day, so the fallback picks it
and the endpoint returns 200 with its data; and a concrete run where a
daytime period dated today is selected. -/
theorem getForecast_selection_witness :
    (getForecast (fun _ => .response 200 "pts" false) (fun _ => some ⟨"u"⟩)
        (fun _ => some ⟨[⟨"Tonight", "2026-10-10T18:00:00-04:00", 60, "F", "Clear", false⟩]⟩)
        "2026-10-11" 0 0 = .ok ("Clear", 60, classify 60)
      ∧ weatherHandler (fun _ => some 0)
          (getForecast (fun _ => .response 200 "pts" false) (fun _ => some ⟨"u"⟩)
            (fun _ => some ⟨[⟨"Tonight", "2026-10-10T18:00:00-04:00", 60, "F", "Clear", false⟩]⟩)
            "2026-10-11") "38.9" "-77.0"
          = some ⟨200, some "application/json", encodeWeatherResult ⟨"Clear", 60, classify 60⟩⟩)
    ∧ getForecast (fun _ => .response 200 "pts" false) (fun _ => some ⟨"u"⟩)
        (fun _ => some ⟨[⟨"Today", "2026-10-11T06:00:00-04:00", 85, "F", "Sunny", true⟩]⟩)
        "2026-10-11" 0 0 = .ok ("Sunny", 85, classify 85) := by
  constructor
  · have h := (getForecast_selection (fun _ => .response 200 "pts" false)
      (fun _ => some ⟨"u"⟩)
      (fun _ => some ⟨[⟨"Tonight", "2026-10-10T18:00:00-04:00", 60, "F", "Clear", false⟩]⟩)
      (fun _ => some 0) "2026-10-11" "38.9" "-77.0" 0 0
      200 "pts" false ⟨"u"⟩ 200 "pts" false
      ⟨[⟨"Tonight", "2026-10-10T18:00:00-04:00", 60, "F", "Clear", false⟩]⟩
      rfl rfl rfl rfl).2
      ⟨"Tonight", "2026-10-10T18:00:00-04:00", 60, "F", "Clear", false⟩ [] rfl (by decide)
    exact ⟨h.1, h.2 (by decide) (by decide) rfl rfl⟩
  · exact (getForecast_selection (fun _ => .response 200 "pts" false)
      (fun _ => some ⟨"u"⟩)
      (fun _ => some ⟨[⟨"Today", "2026-10-11T06:00:00-04:00", 85, "F", "Sunny", true⟩]⟩)
      (fun _ => some 0) "2026-10-11" "38.9" "-77.0" 0 0
      200 "pts" false ⟨"u"⟩ 200 "pts" false
      ⟨[⟨"Today", "2026-10-11T06:00:00-04:00", 85, "F", "Sunny", true⟩]⟩
      rfl rfl rfl rfl).1
      [] ⟨"Today", "2026-10-11T06:00:00-04:00", 85, "F", "Sunny", true⟩ [] rfl
      (by decide) (by decide)

/-- Claim C3: the code is expected to report an explicit error on an empty
period sequence, but the unguarded fallback index at main.go line 127 panics
instead: on a concrete run whose forecast body decodes to zero periods, the
resolver panics and the handler writes no well-defined response. -/
theorem getForecast_empty_periods_panics :
    getForecast (fun _ => .response 200 "pts" false) (fun _ => some ⟨"u"⟩)
        (fun _ => some ⟨[]⟩) "2026-10-11" 0 0 = .panic
    ∧ weatherHandler (fun _ => some 0)
        (getForecast (fun _ => .response 200 "pts" false) (fun _ => some ⟨"u"⟩)
          (fun _ => some ⟨[]⟩) "2026-10-11") "38.8977" "-77.0365" = none := by
  exact ⟨rfl, by decide⟩

/-- Claim C9: whenever the resolver succeeds, the classification component of
its result is exactly classify applied to the temperature component, on both
the today-daytime-match path and the first-element fallback path. -/
theorem getForecast_classification (net : Request → ExchangeResult)
    (decP : String → Option PointsResponse) (decF : String → Option ForecastResponse)
    (today : String) (lat lon : ℚ) (f : String) (t : Int) (c : String)
    (h : getForecast net decP decF today lat lon = .ok (f, t, c)) :
    c = classify t := by
  unfold getForecast at h
  repeat' split at h
  all_goals simp_all
  all_goals obtain ⟨-, rfl, rfl⟩ := h
  all_goals rfl

/-- Witness for claim C9: a concrete successful run whose classification
field equals classify of its temperature field. -/
theorem getForecast_classification_witness :
    "hot" = classify 85 :=
  getForecast_classification (fun _ => .response 200 "pts" false) (fun _ => some ⟨"u"⟩)
    (fun _ => some ⟨[⟨"Today", "2026-10-11T06:00:00-04:00", 85, "F", "Sunny", true⟩]⟩)
    "2026-10-11" 0 0 "Sunny" 85 "hot" (by decide)

end Weather

namespace Weather

/-- Claim C4: validation runs in order with the three fixed 400 bodies: a
missing (empty) lat or lon parameter yields "Missing lat or lon parameter";
otherwise an unparseable lat yields "Invalid latitude"; otherwise an
unparseable lon yields "Invalid longitude". -/
theorem weatherHandler_validation (parse : String → Option ℚ)
    (resolve : ℚ → ℚ → GoResult (String × Int × String)) (latStr lonStr : String) :
    ((latStr = "" ∨ lonStr = "") →
      weatherHandler parse resolve latStr lonStr
        = some ⟨400, none, "Missing lat or lon parameter"⟩)
    ∧ (latStr ≠ "" → lonStr ≠ "" → parse latStr = none →
      weatherHandler parse resolve latStr lonStr
        = some ⟨400, none, "Invalid latitude"⟩)
    ∧ (∀ lat, latStr ≠ "" → lonStr ≠ "" → parse latStr = some lat → parse lonStr = none →
      weatherHandler parse resolve latStr lonStr
        = some ⟨400, none, "Invalid longitude"⟩) := by
  refine ⟨fun h => ?_, fun h1 h2 hp => ?_, fun lat h1 h2 hp1 hp2 => ?_⟩
  · unfold weatherHandler
    rw [if_pos h]
  · unfold weatherHandler
    rw [if_neg (by simp [h1, h2])]
    simp [hp]
  · unfold weatherHandler
    rw [if_neg (by simp [h1, h2])]
    simp [hp1, hp2]

/-- Witness for claim C4: concrete requests exercising each of the three
validation failures. -/
theorem weatherHandler_validation_witness :
    weatherHandler (fun s => if s = "38.9" then some 0 else none) (fun _ _ => .panic)
        "" "38.9" = some ⟨400, none, "Missing lat or lon parameter"⟩
    ∧ weatherHandler (fun s => if s = "38.9" then some 0 else none) (fun _ _ => .panic)
        "abc" "38.9" = some ⟨400, none, "Invalid latitude"⟩
    ∧ weatherHandler (fun s => if s = "38.9" then some 0 else none) (fun _ _ => .panic)
        "38.9" "abc" = some ⟨400, none, "Invalid longitude"⟩ :=
  ⟨(weatherHandler_validation (fun s => if s = "38.9" then some 0 else none)
      (fun _ _ => .panic) "" "38.9").1 (Or.inl rfl),
   (weatherHandler_validation (fun s => if s = "38.9" then some 0 else none)
      (fun _ _ => .panic) "abc" "38.9").2.1 (by decide) (by decide) (by decide),
   (weatherHandler_validation (fun s => if s = "38.9" then some 0 else none)
      (fun _ _ => .panic) "38.9" "abc").2.2 0 (by decide) (by decide) (by decide) (by decide)⟩

/-- Claim C5: whenever the resolver returns an error of any kind, the
endpoint responds 500 with exactly the body "Failed to fetch forecast"; the
response is the same fixed value for every error kind, so no error detail
reaches the body. -/
theorem weatherHandler_resolver_error (parse : String → Option ℚ)
    (resolve : ℚ → ℚ → GoResult (String × Int × String))
    (latStr lonStr : String) (lat lon : ℚ) (e : GoError)
    (h1 : latStr ≠ "") (h2 : lonStr ≠ "")
    (hp1 : parse latStr = some lat) (hp2 : parse lonStr = some lon)
    (hres : resolve lat lon = .err e) :
    weatherHandler parse resolve latStr lonStr
      = some ⟨500, none, "Failed to fetch forecast"⟩ := by
  unfold weatherHandler
  rw [if_neg (by simp [h1, h2])]
  simp [hp1, hp2, hres]

/-- Witness for claim C5: a concrete request whose resolver fails at the
transport level and receives the opaque 500 body. -/
theorem weatherHandler_resolver_error_witness :
    weatherHandler (fun _ => some 0) (fun _ _ => .err .upstream) "1" "2"
      = some ⟨500, none, "Failed to fetch forecast"⟩ :=
  weatherHandler_resolver_error (fun _ => some 0) (fun _ _ => .err .upstream)
    "1" "2" 0 0 .upstream (by decide) (by decide) rfl rfl rfl

/-- Claim C6: whenever the resolver succeeds, the endpoint responds 200 with
content type application/json and a body that is the WeatherResult built from
the resolver's forecast, temperature and classification, serialized with
exactly those three fields. -/
theorem weatherHandler_success (parse : String → Option ℚ)
    (resolve : ℚ → ℚ → GoResult (String × Int × String))
    (latStr lonStr : String) (lat lon : ℚ) (f : String) (t : Int) (c : String)
    (h1 : latStr ≠ "") (h2 : lonStr ≠ "")
    (hp1 : parse latStr = some lat) (hp2 : parse lonStr = some lon)
    (hres : resolve lat lon = .ok (f, t, c)) :
    weatherHandler parse resolve latStr lonStr
      = some ⟨200, some "application/json", encodeWeatherResult ⟨f, t, c⟩⟩ := by
  unfold weatherHandler
  rw [if_neg (by simp [h1, h2])]
  simp [hp1, hp2, hres]

/-- Witness for claim C6: the spec's example request, a success with
temperature 85, produces the JSON body with the three fields and
classification "hot". -/
theorem weatherHandler_success_witness :
    weatherHandler (fun _ => some 0) (fun _ _ => .ok ("Sunny", 85, "hot"))
        "38.8977" "-77.0365"
      = some ⟨200, some "application/json",
          "\x7b\"forecast\":\"Sunny\",\"temperature\":85,\"classification\":\"hot\"\x7d"⟩ := by
  rw [weatherHandler_success (fun _ => some 0) (fun _ _ => .ok ("Sunny", 85, "hot"))
    "38.8977" "-77.0365" 0 0 "Sunny" 85 "hot" (by decide) (by decide) rfl rfl rfl]
  decide

/-- Claim C10: on a request whose lat or lon is missing or unparseable, the
handler's behavior is identical for any two resolvers — the resolver is never
invoked — and the response is a 400. -/
theorem weatherHandler_no_resolve_on_invalid (parse : String → Option ℚ)
    (r1 r2 : ℚ → ℚ → GoResult (String × Int × String)) (latStr lonStr : String)
    (h : latStr = "" ∨ lonStr = "" ∨ parse latStr = none ∨ parse lonStr = none) :
    weatherHandler parse r1 latStr lonStr = weatherHandler parse r2 latStr lonStr
    ∧ ∃ resp : Response, weatherHandler parse r1 latStr lonStr = some resp
        ∧ resp.status = 400 := by
  unfold weatherHandler
  by_cases hm : latStr = "" ∨ lonStr = ""
  · rw [if_pos hm, if_pos hm]
    exact ⟨rfl, ⟨400, none, "Missing lat or lon parameter"⟩, rfl, rfl⟩
  · rw [if_neg hm, if_neg hm]
    have hm1 : ¬ latStr = "" := fun hh => hm (Or.inl hh)
    have hm2 : ¬ lonStr = "" := fun hh => hm (Or.inr hh)
    rcases h with h | h | h | h
    · exact absurd h hm1
    · exact absurd h hm2
    · exact ⟨by simp [h], ⟨400, none, "Invalid latitude"⟩, by simp [h], rfl⟩
    · cases hpl : parse latStr with
      | none => exact ⟨by simp [hpl], ⟨400, none, "Invalid latitude"⟩, by simp [hpl], rfl⟩
      | some lat =>
        exact ⟨by simp [hpl, h], ⟨400, none, "Invalid longitude"⟩, by simp [hpl, h], rfl⟩

/-- Witness for claim C10: with an unparseable lat, a panicking resolver and
a succeeding resolver produce the identical 400 response. -/
theorem weatherHandler_no_resolve_on_invalid_witness :
    weatherHandler (fun _ => none) (fun _ _ => .panic) "x" "y"
      = weatherHandler (fun _ => none) (fun _ _ => .ok ("", 0, "")) "x" "y"
    ∧ ∃ resp : Response,
        weatherHandler (fun _ => none) (fun _ _ => .panic) "x" "y" = some resp
        ∧ resp.status = 400 :=
  weatherHandler_no_resolve_on_invalid (fun _ => none) (fun _ _ => .panic)
    (fun _ _ => .ok ("", 0, "")) "x" "y" (Or.inr (Or.inr (Or.inl rfl)))

end Weather

namespace Weather

/-- Claim C8: the resolver returns an error if and only if one of the two
upstream requests fails at the transport level or one of the two response
bodies fails to decode; the error kind is upstream for a transport failure
and decode for an unmarshal failure. An HTTP error status with a decodable
body or a failed body read produces no resolver error: neither the status
code nor the read-failure flag occurs in the error condition. -/
theorem getForecast_error_spec (net : Request → ExchangeResult)
    (decP : String → Option PointsResponse) (decF : String → Option ForecastResponse)
    (today : String) (lat lon : ℚ) :
    ((∃ e, getForecast net decP decF today lat lon = .err e)
      ↔ (net (pointsRequest lat lon) = .transportFail
         ∨ (∃ s b rb, net (pointsRequest lat lon) = .response s b rb ∧ decP b = none)
         ∨ (∃ s b rb pr, net (pointsRequest lat lon) = .response s b rb ∧ decP b = some pr
             ∧ (net (forecastRequest pr.forecast) = .transportFail
                ∨ ∃ s2 b2 rb2, net (forecastRequest pr.forecast) = .response s2 b2 rb2
                    ∧ decF b2 = none))))
    ∧ (net (pointsRequest lat lon) = .transportFail →
        getForecast net decP decF today lat lon = .err .upstream)
    ∧ (∀ s b rb, net (pointsRequest lat lon) = .response s b rb → decP b = none →
        getForecast net decP decF today lat lon = .err .decode)
    ∧ (∀ s b rb pr, net (pointsRequest lat lon) = .response s b rb → decP b = some pr →
        net (forecastRequest pr.forecast) = .transportFail →
        getForecast net decP decF today lat lon = .err .upstream)
    ∧ (∀ s b rb pr s2 b2 rb2, net (pointsRequest lat lon) = .response s b rb →
        decP b = some pr → net (forecastRequest pr.forecast) = .response s2 b2 rb2 →
        decF b2 = none →
        getForecast net decP decF today lat lon = .err .decode) := by
  refine ⟨⟨?_, ?_⟩, ?_, ?_, ?_, ?_⟩
  · rintro ⟨e, he⟩
    cases h1 : net (pointsRequest lat lon) with
    | transportFail => exact Or.inl rfl
    | response s b rb =>
      cases h2 : decP b with
      | none => exact Or.inr (Or.inl ⟨s, b, rb, rfl, h2⟩)
      | some pr =>
        cases h3 : net (forecastRequest pr.forecast) with
        | transportFail => exact Or.inr (Or.inr ⟨s, b, rb, pr, rfl, h2, Or.inl h3⟩)
        | response s2 b2 rb2 =>
          cases h4 : decF b2 with
          | none => exact Or.inr (Or.inr ⟨s, b, rb, pr, rfl, h2, Or.inr ⟨s2, b2, rb2, h3, h4⟩⟩)
          | some fr =>
            exfalso
            simp only [getForecast, h1, h2, h3, h4] at he
            split at he <;> try (cases he)
            split at he <;> cases he
  · rintro (h1 | ⟨s, b, rb, h1, h2⟩ | ⟨s, b, rb, pr, h1, h2, h3 | ⟨s2, b2, rb2, h3, h4⟩⟩)
    · exact ⟨.upstream, by simp [getForecast, h1]⟩
    · exact ⟨.decode, by simp [getForecast, h1, h2]⟩
    · exact ⟨.upstream, by simp [getForecast, h1, h2, h3]⟩
    · exact ⟨.decode, by simp [getForecast, h1, h2, h3, h4]⟩
  · intro h1
    simp [getForecast, h1]
  · intro s b rb h1 h2
    simp [getForecast, h1, h2]
  · intro s b rb pr h1 h2 h3
    simp [getForecast, h1, h2, h3]
  · intro s b rb pr s2 b2 rb2 h1 h2 h3 h4
    simp [getForecast, h1, h2, h3, h4]

/-- Witness for claim C8: a concrete run whose points request fails at the
transport level yields an upstream error, and one whose forecast body fails
to decode yields a decode error. -/
theorem getForecast_error_spec_witness :
    getForecast (fun _ => .transportFail) (fun _ => some ⟨"u"⟩) (fun _ => some ⟨[]⟩)
        "2026-10-11" 0 0 = .err .upstream
    ∧ getForecast (fun _ => .response 404 "pts" false) (fun _ => some ⟨"u"⟩)
        (fun _ => none) "2026-10-11" 0 0 = .err .decode :=
  ⟨(getForecast_error_spec (fun _ => .transportFail) (fun _ => some ⟨"u"⟩)
      (fun _ => some ⟨[]⟩) "2026-10-11" 0 0).2.1 rfl,
   (getForecast_error_spec (fun _ => .response 404 "pts" false) (fun _ => some ⟨"u"⟩)
      (fun _ => none) "2026-10-11" 0 0).2.2.2.2 404 "pts" false ⟨"u"⟩ 404 "pts" false
      rfl rfl rfl rfl⟩

end Weather

namespace Weather

/-- Witness for claim C1: the boundary facts instantiated at the concrete
temperature 85. -/
theorem classify_spec_witness :
    ((classify 85 = "hot") ↔ 80 ≤ (85 : Int))
    ∧ ((classify 85 = "cold") ↔ (85 : Int) ≤ 50)
    ∧ ((classify 85 = "moderate") ↔ 50 < (85 : Int) ∧ (85 : Int) < 80)
    ∧ classify 79 = "moderate" ∧ classify 80 = "hot"
    ∧ classify 50 = "cold" ∧ classify 51 = "moderate" :=
  classify_spec 85

/-- Witness for claim C7: the request construction facts at the coordinates
of the spec's example request. -/
theorem request_construction_witness :
    (pointsRequest (mkRat 388977 10000) (mkRat (-770365) 10000)).url
      = "https://api.weather.gov/points/" ++ fmt4 (mkRat 388977 10000) ++ ","
          ++ fmt4 (mkRat (-770365) 10000)
    ∧ (∃ a b : String, fmt4 (mkRat 388977 10000) = a ++ "." ++ b ∧ b.length = 4)
    ∧ (∃ a b : String, fmt4 (mkRat (-770365) 10000) = a ++ "." ++ b ∧ b.length = 4)
    ∧ (pointsRequest (mkRat 388977 10000) (mkRat (-770365) 10000)).userAgent
        = "weather-service-example"
    ∧ (forecastRequest "https://api.weather.gov/gridpoints/LWX/96,70/forecast").userAgent
        = "weather-service-example"
    ∧ "weather-service-example" ≠ "" :=
  request_construction (mkRat 388977 10000) (mkRat (-770365) 10000)
    "https://api.weather.gov/gridpoints/LWX/96,70/forecast"

end Weather
